import Mathlib

/-!
Shallow embedding of `src/fetch_usaspending.py` from the nih-awards-tracker
repository: the fetch / enrich / normalize / write pipeline for USAspending
transaction data, together with the `build_agency_filter` validator from the
`_site` variant of the same file.

Python dictionary values are modelled by `PVal` (string, integer, boolean, or
`None`/NaN); Python truthiness and the `x or y` idiom are modelled explicitly.
DataFrames are modelled row-major: each normalized row is an association list
from column name to `PVal`, and every column-wise operation of the source
(`base[k] = v`, `base[COLS_OUT]`, `.apply`) is a per-row operation there.
-/

namespace USASpending

/-- A Python value as it appears in the JSON payloads and DataFrame cells:
a string, an integer, a boolean, or `None`/NaN. -/
inductive PVal where
  | vStr (s : String)
  | vInt (n : Int)
  | vBool (b : Bool)
  | vNone
  deriving DecidableEq

/-- Python truthiness of a `PVal`: empty string, zero, `False` and `None`
are falsy, everything else is truthy. -/
def PVal.truthy : PVal → Bool
  | .vStr s => !(s = "")
  | .vInt n => !(n = 0)
  | .vBool b => b
  | .vNone => false

/-- The Python expression `a or b`: `a` when truthy, else `b`. -/
def pyOr (a b : PVal) : PVal := if a.truthy then a else b

/-- The Python builtin `str(...)` applied to a `PVal`. -/
def pyStr : PVal → String
  | .vStr s => s
  | .vInt n => toString n
  | .vBool b => if b then "True" else "False"
  | .vNone => "None"

/-- Whether `pat` occurs at the start of `l` (character-list level). -/
def charStarts : List Char → List Char → Bool
  | [], _ => true
  | _ :: _, [] => false
  | a :: as, b :: bs => a = b && charStarts as bs

/-- Whether `pat` occurs somewhere inside `l` (character-list level);
models the Python substring test `pat in s`. -/
def charSub (pat : List Char) : List Char → Bool
  | [] => pat.isEmpty
  | c :: cs => charStarts pat (c :: cs) || charSub pat cs

/-- The Python substring test `pat in s`. -/
def strHasSub (s pat : String) : Bool := charSub pat.data s.data

/-- Models Python `str.upper()` (exact on ASCII). -/
def pyUpper (s : String) : String := String.mk (s.data.map Char.toUpper)

/-- Models Python `str.lower()` (exact on ASCII). -/
def pyLower (s : String) : String := String.mk (s.data.map Char.toLower)

/-- Models Python `str.strip()`: drop whitespace from both ends. -/
def pyStrip (s : String) : String :=
  String.mk (((s.data.dropWhile Char.isWhitespace).reverse.dropWhile
    Char.isWhitespace).reverse)

/-- Models Python string slicing `s[:5]`: the first five characters. -/
def pySlice5 (s : String) : String := String.mk (s.data.take 5)

/-- One row returned by the transaction-search endpoint, carrying the
fields of `TXN_FIELDS`; `none` models an absent key or JSON null. -/
structure TxnRow where
  generated_internal_id : Option String := none
  internal_id : Option String := none
  award_id : Option String := none
  recipient_name : Option String := none
  action_date : Option String := none
  transaction_amount : Option Int := none
  awarding_agency : Option String := none
  awarding_sub_agency : Option String := none
  product_or_service_code : Option String := none
  product_or_service_description : Option String := none
  naics_code : Option String := none
  naics_description : Option String := none
  pop_state_code : Option String := none
  deriving DecidableEq

/-- The nested `place_of_performance` object of an award-detail response. -/
structure PoPLoc where
  city_name : PVal := .vNone
  location_zip5 : PVal := .vNone
  zip5 : PVal := .vNone
  zip4 : PVal := .vNone
  county_name : PVal := .vNone
  deriving DecidableEq

/-- An award-detail response as read by the enrichment loop; each field is
the value of the corresponding JSON key, `vNone` when absent. -/
structure Detail where
  piid : PVal := .vNone
  pop_city_name : PVal := .vNone
  pop_zip5 : PVal := .vNone
  pop_zip4 : PVal := .vNone
  pop_county_name : PVal := .vNone
  place_of_performance : Option PoPLoc := none
  type_set_aside : PVal := .vNone
  type_set_aside_description : PVal := .vNone
  contracting_officers_determination_of_business_size : PVal := .vNone
  last_modified_date : PVal := .vNone
  deriving DecidableEq

/-- The empty detail `{}`: every `get` yields `None`. -/
def emptyDetail : Detail := {}

/-- The empty `place_of_performance` object. -/
def emptyPoP : PoPLoc := {}

/-- Models `det.get("place_of_performance") or {}`. -/
def popOf (det : Detail) : PoPLoc := det.place_of_performance.getD emptyPoP

/-- The flag helper `_is_small_business`: a string that strips and uppercases
to exactly `"SMALL BUSINESS"`; every non-string is `False`. -/
def _is_small_business (x : PVal) : Bool :=
  match x with
  | .vStr s => pyUpper (pyStrip s) = "SMALL BUSINESS"
  | _ => false

/-- The flag helper `_is_8a`: a string whose uppercasing contains the
substring `"8(A"`; every non-string is `False`. -/
def _is_8a (x : PVal) : Bool :=
  match x with
  | .vStr s => strHasSub (pyUpper s) "8(A"
  | _ => false

/-- The fixed output schema `COLS_OUT`. -/
def COLS_OUT : List String :=
  [ "Award Id",
    "Recipient Name",
    "Action Date",
    "Award Amount",
    "Piid",
    "Place Of Performance State Code",
    "Place Of Performance City Name",
    "Place Of Performance ZIP Code",
    "Place Of Performance County Name",
    "Product Or Service Code (Psc)",
    "Psc Description",
    "Naics Code",
    "Naics Description",
    "Type Of Set Aside",
    "Type Of Set Aside Description",
    "Contracting Officer Business Size Determination",
    "Last Modified Date",
    "Is Small Business",
    "Is 8a Set-Aside" ]

/-- A normalized row: an association list from column name to cell value. -/
abbrev Row : Type := List (String × PVal)

/-- Cell access: the value stored under column `k` (NaN when the column is
missing; in the pipeline every looked-up column exists). -/
def cellOf (r : Row) (k : String) : PVal := (List.lookup k r).getD .vNone

/-- Models the column assignment `base[k] = v` restricted to one row:
replace the cell under key `k`. -/
def setCol (r : Row) (k : String) (v : PVal) : Row :=
  r.map (fun p => if p.1 = k then (k, v) else p)

/-- Models the reindexing `base[COLS_OUT]` restricted to one row: select the
cells in the order of `cols`. -/
def reindex (cols : List String) (r : Row) : Row :=
  cols.map (fun c => (c, cellOf r c))

/-- A transaction field as a DataFrame cell: present strings stay strings,
absent keys / JSON nulls become NaN. -/
def optToVal : Option String → PVal
  | some s => .vStr s
  | none => .vNone

/-- A transaction amount as a DataFrame cell. -/
def amtToVal : Option Int → PVal
  | some n => .vInt n
  | none => .vNone

/-- Models `pd.to_datetime(_, errors="coerce")` abstractly: string dates are
kept verbatim, everything else coerces to NaT (`vNone`).  No claim depends on
date normalization, only on presence and schema. -/
def pd_to_datetime (v : PVal) : PVal :=
  match v with
  | .vStr s => .vStr s
  | _ => .vNone

/-- One row of the `base` DataFrame as built from the transaction fields,
in the dictionary order of the source (which coincides with `COLS_OUT`):
transaction-backed columns carry the transaction value, the detail-backed
columns start as `""`, the two flags start as `False`. -/
def buildBaseRow (t : TxnRow) : Row :=
  [ ("Award Id", optToVal t.award_id),
    ("Recipient Name", optToVal t.recipient_name),
    ("Action Date", pd_to_datetime (optToVal t.action_date)),
    ("Award Amount", amtToVal t.transaction_amount),
    ("Piid", .vStr ""),
    ("Place Of Performance State Code", optToVal t.pop_state_code),
    ("Place Of Performance City Name", .vStr ""),
    ("Place Of Performance ZIP Code", .vStr ""),
    ("Place Of Performance County Name", .vStr ""),
    ("Product Or Service Code (Psc)", optToVal t.product_or_service_code),
    ("Psc Description", optToVal t.product_or_service_description),
    ("Naics Code", optToVal t.naics_code),
    ("Naics Description", optToVal t.naics_description),
    ("Type Of Set Aside", .vStr ""),
    ("Type Of Set Aside Description", .vStr ""),
    ("Contracting Officer Business Size Determination", .vStr ""),
    ("Last Modified Date", .vStr ""),
    ("Is Small Business", .vBool false),
    ("Is 8a Set-Aside", .vBool false) ]

/-- The fast path row: `base[COLS_OUT]` with no detail calls. -/
def baseRowOut (t : TxnRow) : Row := reindex COLS_OUT (buildBaseRow t)

/-- Models `det.get("piid") or ""`. -/
def detPiid (det : Detail) : PVal := pyOr det.piid (.vStr "")

/-- Models `det.get("pop_city_name") or pop.get("city_name") or ""`. -/
def detCity (det : Detail) : PVal :=
  pyOr det.pop_city_name (pyOr (popOf det).city_name (.vStr ""))

/-- The raw zip chain: `det.get("pop_zip5") or pop.get("location_zip5") or
pop.get("zip5") or det.get("pop_zip4") or pop.get("zip4") or ""`. -/
def detZipRaw (det : Detail) : PVal :=
  pyOr det.pop_zip5 (pyOr (popOf det).location_zip5 (pyOr (popOf det).zip5
    (pyOr det.pop_zip4 (pyOr (popOf det).zip4 (.vStr "")))))

/-- Models `str(pop_zip_raw)[:5] if pop_zip_raw else ""`. -/
def detZip5 (det : Detail) : PVal :=
  if (detZipRaw det).truthy then .vStr (pySlice5 (pyStr (detZipRaw det)))
  else .vStr ""

/-- Models `det.get("pop_county_name") or pop.get("county_name") or ""`. -/
def detCounty (det : Detail) : PVal :=
  pyOr det.pop_county_name (pyOr (popOf det).county_name (.vStr ""))

/-- Models `det.get("type_set_aside") or ""`. -/
def detSetAside (det : Detail) : PVal := pyOr det.type_set_aside (.vStr "")

/-- Models `det.get("type_set_aside_description") or ""`. -/
def detSetAsideDesc (det : Detail) : PVal :=
  pyOr det.type_set_aside_description (.vStr "")

/-- Models `det.get("contracting_officers_determination_of_business_size")
or ""`. -/
def detSize (det : Detail) : PVal :=
  pyOr det.contracting_officers_determination_of_business_size (.vStr "")

/-- Models `det.get("last_modified_date") or ""`. -/
def detLastMod (det : Detail) : PVal := pyOr det.last_modified_date (.vStr "")

/-- One row of the detail-enriched output: the base row with the eight
enrichment columns assigned from the detail response, the two flags computed
from the stored set-aside / business-size cells, then reindexed to
`COLS_OUT` — exactly the column-wise steps of the source, per row. -/
def enrichRow (t : TxnRow) (det : Detail) : Row :=
  let b1 := setCol (buildBaseRow t) "Piid" (detPiid det)
  let b2 := setCol b1 "Place Of Performance City Name" (detCity det)
  let b3 := setCol b2 "Place Of Performance ZIP Code" (detZip5 det)
  let b4 := setCol b3 "Place Of Performance County Name" (detCounty det)
  let b5 := setCol b4 "Type Of Set Aside" (detSetAside det)
  let b6 := setCol b5 "Type Of Set Aside Description" (detSetAsideDesc det)
  let b7 := setCol b6 "Contracting Officer Business Size Determination"
    (detSize det)
  let b8 := setCol b7 "Last Modified Date" (detLastMod det)
  let b9 := setCol b8 "Is Small Business"
    (.vBool ( _is_small_business
      (cellOf b8 "Contracting Officer Business Size Determination")))
  let b10 := setCol b9 "Is 8a Set-Aside"
    (.vBool ( _is_8a (cellOf b9 "Type Of Set Aside Description") ||
              _is_8a (cellOf b9 "Type Of Set Aside")))
  reindex COLS_OUT b10

/-! ### Pagination -/

/-- One response of the transaction-search endpoint: the `results` list and
the `page_metadata.hasNext` flag. -/
structure Page where
  results : List TxnRow
  hasNext : Bool
  deriving DecidableEq

/-- The page loop of `fetch_for_agency` over the server's page sequence
(`pages.get! (page - 1)` is the response to the request for page `page`):
request a page, append its results, stop when the page reports no next page
or came back empty, otherwise advance and stop if the optional page cap is
exceeded (a cap of `0` is falsy in Python and means no cap).  Returns the
accumulated rows and the number of page requests issued. -/
def fetchLoop (maxPages : Option Nat) : Nat → List Page → List TxnRow × Nat
  | _, [] => ([], 0)
  | page, p :: rest =>
    if !p.hasNext || p.results.isEmpty then (p.results, 1)
    else if maxPages.elim false (fun m => !(m = 0) && decide (page + 1 > m)) then
      (p.results, 1)
    else
      let q := fetchLoop maxPages (page + 1) rest
      (p.results ++ q.1, q.2 + 1)

/-! ### Detail lookup with retries -/

/-- The outcome of one detail-lookup attempt: a 200 response (whose JSON body
may be null, modelled `none`, in which case `r.json() or {}` yields the empty
detail), a non-200 status code, or a raised `RequestException` (timeout,
connection error). -/
inductive AttemptOutcome where
  | success (body : Option Detail)
  | status (code : Nat)
  | exc
  deriving DecidableEq

/-- Whether an attempt returned a 200 response. -/
def isSuccess : AttemptOutcome → Bool
  | .success _ => true
  | _ => false

/-- The retryable status codes of `_get_detail`. -/
def RETRYABLE_STATUSES : List Nat := [429, 500, 502, 503, 504]

/-- The attempt loop of `_get_detail`, with `fuel` attempts remaining and
`attempt` the zero-based index of the current one: a 200 response returns its
body (`{}` for a null body), a retryable status continues, any other status
returns `{}` at once, an exception continues unless this was the last
attempt; an exhausted loop returns `{}`. -/
def getDetailFrom (oracle : Nat → AttemptOutcome) : Nat → Nat → Detail
  | 0, _ => emptyDetail
  | fuel + 1, attempt =>
    match oracle attempt with
    | .success b => b.getD emptyDetail
    | .status c =>
      if c ∈ RETRYABLE_STATUSES then getDetailFrom oracle fuel (attempt + 1)
      else emptyDetail
    | .exc =>
      if fuel = 0 then emptyDetail else getDetailFrom oracle fuel (attempt + 1)

/-- The function `_get_detail`: run the attempt loop for `tries` attempts.
Always returns a detail, possibly empty, and never propagates an error. -/
def _get_detail (oracle : Nat → AttemptOutcome) (tries : Nat) : Detail :=
  getDetailFrom oracle tries 0

/-- The attempt loop of `_get_detail` instrumented with time: each attempt
first sleeps `sleep_base * (attempt + 1) + jitter attempt * 0.05`, where
`jitter attempt` models the `random.random()` draw of that attempt.  Returns
the detail together with the total time slept. -/
def getDetailTimedFrom (oracle : Nat → AttemptOutcome) (sleep_base : Rat)
    (jitter : Nat → Rat) : Nat → Nat → Detail × Rat
  | 0, _ => (emptyDetail, 0)
  | fuel + 1, attempt =>
    let slept := sleep_base * (attempt + 1) + jitter attempt * (5 / 100)
    match oracle attempt with
    | .success b => (b.getD emptyDetail, slept)
    | .status c =>
      if c ∈ RETRYABLE_STATUSES then
        let q := getDetailTimedFrom oracle sleep_base jitter fuel (attempt + 1)
        (q.1, slept + q.2)
      else (emptyDetail, slept)
    | .exc =>
      if fuel = 0 then (emptyDetail, slept)
      else
        let q := getDetailTimedFrom oracle sleep_base jitter fuel (attempt + 1)
        (q.1, slept + q.2)

/-! ### The per-agency pipeline -/

/-- A DataFrame: the column list and the rows.  `fetch_for_agency` returns a
frame whose `cols` are always `COLS_OUT`. -/
structure DF where
  cols : List String
  rows : List Row
  deriving DecidableEq

/-- The id-resolution step of the enrichment loop:
`str(gid or iid or aid or "")`. -/
def resolveId (t : TxnRow) : String :=
  pyStr (pyOr (optToVal t.generated_internal_id)
    (pyOr (optToVal t.internal_id) (pyOr (optToVal t.award_id) (.vStr ""))))

/-- The `sleep_base` default of `_get_detail` (0.09 seconds). -/
def SLEEP_BASE : Rat := 9 / 100

/-- The `tries` default of `_get_detail`. -/
def TRIES : Nat := 4

/-- One iteration of the enrichment loop:
`det = _get_detail(s2, award_id) if award_id else {}` followed by building
the enriched row; returns the row together with the time slept. -/
def detailRowTimed (net : String → Nat → AttemptOutcome) (jitter : Nat → Rat)
    (t : TxnRow) : Row × Rat :=
  if resolveId t = "" then (enrichRow t emptyDetail, 0)
  else
    ((getDetailTimedFrom (net (resolveId t)) SLEEP_BASE jitter TRIES 0).1 |> enrichRow t,
     (getDetailTimedFrom (net (resolveId t)) SLEEP_BASE jitter TRIES 0).2)

/-- The function `fetch_for_agency` over a fixed set of server responses:
`pages` is the transaction endpoint's page sequence, `net id attempt` the
outcome of the given detail-lookup attempt for award `id`, `jitter` the
`random.random()` draws.  Returns the normalized frame and the total detail
sleep time.  The three paths of the source: no transactions → an empty frame
with columns `COLS_OUT`; `do_detail = false` → the base rows; otherwise each
row is enriched with its (possibly empty) detail. -/
def fetch_for_agency (pages : List Page) (do_detail : Bool)
    (net : String → Nat → AttemptOutcome) (jitter : Nat → Rat)
    (maxPages : Option Nat) : DF × Rat :=
  if (fetchLoop maxPages 1 pages).1.isEmpty then (⟨COLS_OUT, []⟩, 0)
  else if !do_detail then
    (⟨COLS_OUT, (fetchLoop maxPages 1 pages).1.map baseRowOut⟩, 0)
  else
    (⟨COLS_OUT, (fetchLoop maxPages 1 pages).1.map
        (fun t => (detailRowTimed net jitter t).1)⟩,
     ((fetchLoop maxPages 1 pages).1.map
        (fun t => (detailRowTimed net jitter t).2)).sum)

/-! ### Output writing and aggregation -/

/-- The recipient-name cell of a row, the `groupby` key; `vNone` is the NaN
group kept by `dropna=False`. -/
def recipientOf (r : Row) : PVal := cellOf r "Recipient Name"

/-- The award-amount cell of a row as a number; NaN contributes `0` to a
group sum, as in pandas `sum` with `skipna`. -/
def amountOf (r : Row) : Int :=
  match cellOf r "Award Amount" with
  | .vInt n => n
  | _ => 0

/-- The `groupby("Recipient Name").sum()` total of key `k`. -/
def groupTotal (rows : List Row) (k : PVal) : Int :=
  ((rows.filter (fun r => decide (recipientOf r = k))).map amountOf).sum

/-- The descending-by-total order on aggregate pairs. -/
def descByTotal (a b : PVal × Int) : Prop := b.2 ≤ a.2

instance : DecidableRel descByTotal := fun a b => inferInstanceAs (Decidable (b.2 ≤ a.2))

instance : IsTotal (PVal × Int) descByTotal := ⟨fun a b => le_total b.2 a.2⟩

instance : IsTrans (PVal × Int) descByTotal := ⟨fun _ _ _ hab hbc => le_trans hbc hab⟩

/-- Models `sort_values("Award Amount", ascending=False)`: arrange the
aggregate pairs in descending total order (pandas quicksort leaves tie order
unspecified, so any descending arrangement is faithful). -/
def sortDesc (l : List (PVal × Int)) : List (PVal × Int) :=
  List.insertionSort descByTotal l

/-- The aggregate table: one `(recipient, total)` pair per distinct recipient
key of the rows (`dropna=False`: the NaN key is a group of its own), sorted
descending by total. -/
def top_recipients (rows : List Row) : List (PVal × Int) :=
  sortDesc (((rows.map recipientOf).dedup).map (fun k => (k, groupTotal rows k)))

/-- The content written to one output file. -/
inductive OutFile where
  | table (df : DF)
  | records (df : DF)
  | aggTable (t : List (PVal × Int))
  deriving DecidableEq

/-- The awards CSV file name. -/
def csvName (slug : String) (days : Nat) : String :=
  slug ++ "_awards_last_" ++ toString days ++ "d.csv"

/-- The awards JSON file name. -/
def jsonName (slug : String) (days : Nat) : String :=
  slug ++ "_awards_last_" ++ toString days ++ "d.json"

/-- The aggregate top-recipients CSV file name. -/
def aggName (slug : String) (days : Nat) : String :=
  slug ++ "_top_recipients_last_" ++ toString days ++ "d.csv"

/-- The function `write_outputs` as the list of files it writes, in order:
the awards CSV and JSON always; the aggregate top-recipients CSV only when
the frame is non-empty (`if not df.empty:`). -/
def write_outputs (df : DF) (slug : String) (days : Nat) :
    List (String × OutFile) :=
  [(csvName slug days, .table df), (jsonName slug days, .records df)] ++
  (if df.rows.isEmpty then []
   else [(aggName slug days, .aggTable (top_recipients df.rows))])

/-! ### The `_site` variant's tier validation -/

/-- The `agencies` filter block of the payload. -/
structure AgencyFilter where
  type : String
  tier : String
  name : String
  deriving DecidableEq

/-- The function `build_agency_filter` of the `_site` variant: normalize the
tier with `strip().lower()`, reject anything other than `toptier`/`subtier`
with a `ValueError`, otherwise return the filter block. -/
def build_agency_filter (tier name : String) : Except String AgencyFilter :=
  let t := pyLower (pyStrip tier)
  if t = "toptier" || t = "subtier" then .ok ⟨"awarding", t, name⟩
  else .error ("tier must be toptier or subtier, got: " ++ t)

/-- The `_site` variant's `fetch_for_agency`: validate the tier first — on
failure the `ValueError` propagates before any network request is issued
(zero page requests) — then run the pipeline.  The second component counts
the transaction-page requests issued. -/
def fetch_for_agency_site (tier name : String) (pages : List Page)
    (do_detail : Bool) (net : String → Nat → AttemptOutcome)
    (jitter : Nat → Rat) (maxPages : Option Nat) :
    Except String (DF × Rat) × Nat :=
  match build_agency_filter tier name with
  | .error e => (.error e, 0)
  | .ok _ =>
    (.ok (fetch_for_agency pages do_detail net jitter maxPages),
     (fetchLoop maxPages 1 pages).2)

/-! ### Spec-side predicates (from the claim wording, for comparison) -/

/-- The claim's predicate, from its wording, not from the code: the cell
contains the substring `"8(a)"` — with the closing parenthesis —
case-insensitively; for ASCII strings this is containment of `"8(A)"` in the
uppercased string.  Non-strings contain nothing. -/
def contains8aParen : PVal → Bool
  | .vStr s => strHasSub (pyUpper s) "8(A)"
  | _ => false

/-- The amended claim's predicate: the cell contains the substring `"8(a"` —
no closing parenthesis — case-insensitively. -/
def contains8aOpen : PVal → Bool
  | .vStr s => strHasSub (pyUpper s) "8(A"
  | _ => false

/-! ### Concrete sample inputs for witnesses and counterexamples -/

/-- A transaction row with every field absent. -/
def sampleTxn : TxnRow := {}

/-- A transaction row carrying only an award id. -/
def txnB : TxnRow := { award_id := some "AWD1" }

/-- A detail whose set-aside code contains `"8(A"` but not `"8(a)"` in any
case. -/
def det8aOpen : Detail := { type_set_aside := .vStr "8(ABC" }

/-- A detail with a genuine 8(a) set-aside description. -/
def det8aFull : Detail := { type_set_aside_description := .vStr "8(a) Set-Aside Program" }

/-- A detail whose business-size determination strips and uppercases to
`"SMALL BUSINESS"`. -/
def detSmall : Detail :=
  { contracting_officers_determination_of_business_size := .vStr " small business " }

/-- A detail with a nine-digit zip in `pop_zip5`. -/
def detZip9 : Detail := { pop_zip5 := .vStr "123456789" }

/-- A single final page carrying one transaction. -/
def pages1 : List Page := [⟨[txnB], false⟩]

/-- A non-final, non-empty page. -/
def pageA : Page := ⟨[sampleTxn], true⟩

/-- A final page. -/
def pageStop : Page := ⟨[txnB], false⟩

/-- A detail network on which every attempt raises. -/
def net0 : String → Nat → AttemptOutcome := fun _ _ => .exc

/-- A zero jitter source. -/
def j0 : Nat → Rat := fun _ => 0

/-- Three normalized rows over two recipients, for aggregate witnesses. -/
def rows3 : List Row :=
  [ [("Recipient Name", .vStr "ALPHA"), ("Award Amount", .vInt 100)],
    [("Recipient Name", .vStr "BETA"), ("Award Amount", .vInt 300)],
    [("Recipient Name", .vStr "ALPHA"), ("Award Amount", .vInt 200)] ]

/-! ## Helper lemmas -/

lemma keys_enrichRow (t : TxnRow) (det : Detail) :
    (enrichRow t det).map Prod.fst = COLS_OUT := rfl

lemma keys_baseRowOut (t : TxnRow) :
    (baseRowOut t).map Prod.fst = COLS_OUT := rfl

lemma cellEnrich_piid (t : TxnRow) (det : Detail) :
    cellOf (enrichRow t det) "Piid" = detPiid det := rfl

lemma cellEnrich_city (t : TxnRow) (det : Detail) :
    cellOf (enrichRow t det) "Place Of Performance City Name" = detCity det := rfl

lemma cellEnrich_zip (t : TxnRow) (det : Detail) :
    cellOf (enrichRow t det) "Place Of Performance ZIP Code" = detZip5 det := rfl

lemma cellEnrich_county (t : TxnRow) (det : Detail) :
    cellOf (enrichRow t det) "Place Of Performance County Name" = detCounty det := rfl

lemma cellEnrich_setAside (t : TxnRow) (det : Detail) :
    cellOf (enrichRow t det) "Type Of Set Aside" = detSetAside det := rfl

lemma cellEnrich_setAsideDesc (t : TxnRow) (det : Detail) :
    cellOf (enrichRow t det) "Type Of Set Aside Description" = detSetAsideDesc det := rfl

lemma cellEnrich_size (t : TxnRow) (det : Detail) :
    cellOf (enrichRow t det) "Contracting Officer Business Size Determination" =
      detSize det := rfl

lemma cellEnrich_lastMod (t : TxnRow) (det : Detail) :
    cellOf (enrichRow t det) "Last Modified Date" = detLastMod det := rfl

lemma cellEnrich_isSmall (t : TxnRow) (det : Detail) :
    cellOf (enrichRow t det) "Is Small Business" =
      .vBool ( _is_small_business (detSize det)) := rfl

lemma cellEnrich_is8a (t : TxnRow) (det : Detail) :
    cellOf (enrichRow t det) "Is 8a Set-Aside" =
      .vBool ( _is_8a (detSetAsideDesc det) || _is_8a (detSetAside det)) := rfl

lemma pyOr_of_falsy {a : PVal} (h : a.truthy = false) (b : PVal) : pyOr a b = b := by
  simp [pyOr, h]

lemma is_small_business_iff (v : PVal) :
    _is_small_business v = true ↔
      ∃ s, v = .vStr s ∧ pyUpper (pyStrip s) = "SMALL BUSINESS" := by
  cases v <;> simp [ _is_small_business]

lemma contains8aOpen_eq (v : PVal) : contains8aOpen v = _is_8a v := by
  cases v <;> rfl

lemma pySlice5_length (s : String) : (pySlice5 s).length ≤ 5 := by
  have : (pySlice5 s).length = (s.data.take 5).length := rfl
  rw [this, List.length_take]
  exact min_le_left _ _

lemma getDetailTimedFrom_fst (oracle : Nat → AttemptOutcome) (sb : Rat)
    (j : Nat → Rat) :
    ∀ fuel attempt,
      (getDetailTimedFrom oracle sb j fuel attempt).1 = getDetailFrom oracle fuel attempt := by
  intro fuel
  induction fuel with
  | zero => intro attempt; rfl
  | succ n ih =>
    intro attempt
    cases ho : oracle attempt with
    | success b => simp [getDetailTimedFrom, getDetailFrom, ho]
    | status c =>
      by_cases hc : c ∈ RETRYABLE_STATUSES <;>
        simp [getDetailTimedFrom, getDetailFrom, ho, hc, ih]
    | exc =>
      by_cases hf : n = 0 <;>
        simp [getDetailTimedFrom, getDetailFrom, ho, hf, ih]

lemma detailRowTimed_fst_jitter (net : String → Nat → AttemptOutcome)
    (j1 j2 : Nat → Rat) (t : TxnRow) :
    (detailRowTimed net j1 t).1 = (detailRowTimed net j2 t).1 := by
  unfold detailRowTimed
  by_cases ha : resolveId t = ""
  · simp [ha]
  · rw [if_neg ha, if_neg ha]
    dsimp only
    rw [getDetailTimedFrom_fst, getDetailTimedFrom_fst]

lemma getDetailFrom_of_fail {oracle : Nat → AttemptOutcome}
    (h : ∀ a, isSuccess (oracle a) = false) :
    ∀ fuel attempt, getDetailFrom oracle fuel attempt = emptyDetail := by
  intro fuel
  induction fuel with
  | zero => intro _; rfl
  | succ n ih =>
    intro attempt
    cases ho : oracle attempt with
    | success b => have hb := h attempt; rw [ho] at hb; simp [isSuccess] at hb
    | status c =>
      by_cases hc : c ∈ RETRYABLE_STATUSES <;> simp [getDetailFrom, ho, hc, ih]
    | exc =>
      by_cases hf : n = 0 <;> simp [getDetailFrom, ho, hf, ih]

lemma detailRowTimed_fst_of_fail {net : String → Nat → AttemptOutcome}
    (hfail : ∀ id a, isSuccess (net id a) = false) (j : Nat → Rat) (t : TxnRow) :
    (detailRowTimed net j t).1 = enrichRow t emptyDetail := by
  unfold detailRowTimed
  by_cases ha : resolveId t = ""
  · simp [ha]
  · rw [if_neg ha]
    dsimp only
    rw [getDetailTimedFrom_fst, getDetailFrom_of_fail (fun a => hfail _ a)]

lemma sortDesc_perm (l : List (PVal × Int)) : (sortDesc l).Perm l :=
  List.perm_insertionSort _ l

lemma sortDesc_sorted (l : List (PVal × Int)) :
    List.Sorted descByTotal (sortDesc l) :=
  List.sorted_insertionSort _ l

lemma countP_pairs_eq_one (f : PVal → Int) :
    ∀ {ks : List PVal}, ks.Nodup → ∀ {k}, k ∈ ks →
      (ks.map (fun x => (x, f x))).countP (fun p => decide (p.1 = k)) = 1 := by
  intro ks
  induction ks with
  | nil => intro _ k hk; cases hk
  | cons a as ih =>
    intro hn k hk
    obtain ⟨ha, hn'⟩ := List.nodup_cons.mp hn
    rcases List.mem_cons.mp hk with rfl | hk'
    · have h0 : (as.map (fun x => (x, f x))).countP (fun p => decide (p.1 = k)) = 0 := by
        refine List.countP_eq_zero.mpr ?_
        intro p hp
        obtain ⟨x, hx, rfl⟩ := List.mem_map.mp hp
        simp only [decide_eq_true_eq]
        intro he
        exact ha (he ▸ hx)
      simp [List.countP_cons, h0]
    · have hak : ¬ ((a, f a).1 = k) := by
        intro he
        cases he
        exact ha hk'
      simp [List.countP_cons, hak, ih hn' hk']

lemma keys_detailRowTimed (net : String → Nat → AttemptOutcome) (j : Nat → Rat)
    (t : TxnRow) : ((detailRowTimed net j t).1).map Prod.fst = COLS_OUT := by
  unfold detailRowTimed
  by_cases ha : resolveId t = ""
  · rw [if_pos ha]
    exact keys_enrichRow t emptyDetail
  · rw [if_neg ha]
    exact keys_enrichRow t _

/-! ## Claims -/

/-- C2, counterexample: in the row enriched from a detail whose set-aside
code is `"8(ABC"`, the derived flag is true although neither set-aside field
contains the substring `"8(a)"` (with its closing parenthesis)
case-insensitively — the code tests for `"8(A"` only. -/
theorem C2_counterexample :
    cellOf (enrichRow sampleTxn det8aOpen) "Is 8a Set-Aside" = .vBool true ∧
    contains8aParen (cellOf (enrichRow sampleTxn det8aOpen) "Type Of Set Aside") = false ∧
    contains8aParen (cellOf (enrichRow sampleTxn det8aOpen) "Type Of Set Aside Description") = false :=
  ⟨rfl, rfl, rfl⟩

/-- C2, amended: for every normalized row, the derived `Is 8a Set-Aside`
flag is true if and only if either the stored set-aside code field or the
stored set-aside description field contains the substring `"8(a"` — without
the closing parenthesis — case-insensitively. -/
theorem C2_is8a_amended (t : TxnRow) (det : Detail) :
    cellOf (enrichRow t det) "Is 8a Set-Aside" = .vBool true ↔
      (contains8aOpen (cellOf (enrichRow t det) "Type Of Set Aside Description") = true ∨
       contains8aOpen (cellOf (enrichRow t det) "Type Of Set Aside") = true) := by
  rw [cellEnrich_is8a, cellEnrich_setAsideDesc, cellEnrich_setAside,
    contains8aOpen_eq, contains8aOpen_eq]
  simp only [PVal.vBool.injEq, Bool.or_eq_true]

/-- C2, witness: a genuine 8(a) set-aside description sets the flag. -/
theorem C2_witness :
    cellOf (enrichRow sampleTxn det8aFull) "Is 8a Set-Aside" = .vBool true :=
  (C2_is8a_amended sampleTxn det8aFull).mpr (Or.inl (by decide))

/-- C8: for every normalized row, the derived `Is Small Business` flag is
true if and only if the stored business-size-determination cell is a string
that, trimmed and uppercased, exactly equals `"SMALL BUSINESS"`; it is false
for any other value, including the empty string and non-string values. -/
theorem C8_small_business (t : TxnRow) (det : Detail) :
    cellOf (enrichRow t det) "Is Small Business" = .vBool true ↔
      ∃ s, cellOf (enrichRow t det) "Contracting Officer Business Size Determination" =
          .vStr s ∧ pyUpper (pyStrip s) = "SMALL BUSINESS" := by
  rw [cellEnrich_isSmall, cellEnrich_size]
  simp only [PVal.vBool.injEq]
  exact is_small_business_iff _

/-- C8, witness: a size determination of `" small business "` sets the
flag. -/
theorem C8_witness :
    cellOf (enrichRow sampleTxn detSmall) "Is Small Business" = .vBool true :=
  (C8_small_business sampleTxn detSmall).mpr ⟨" small business ", rfl, by decide⟩

/-- C10: the zip cell of every enriched row is a string of at most five
characters: the first zip field found by the fallback chain, coerced to a
string and truncated to its first five characters, and the empty string when
no zip is found. -/
theorem C10_zip (t : TxnRow) (det : Detail) :
    ∃ z, cellOf (enrichRow t det) "Place Of Performance ZIP Code" = .vStr z ∧
      z.length ≤ 5 ∧
      ((detZipRaw det).truthy = true → z = pySlice5 (pyStr (detZipRaw det))) ∧
      ((detZipRaw det).truthy = false → z = "") := by
  rw [cellEnrich_zip]
  cases h : (detZipRaw det).truthy with
  | true =>
    refine ⟨pySlice5 (pyStr (detZipRaw det)), by simp [detZip5, h], pySlice5_length _,
      fun _ => rfl, ?_⟩
    intro hf
    exact absurd hf (by decide)
  | false =>
    refine ⟨"", by simp [detZip5, h], by decide, ?_, fun _ => rfl⟩
    intro ht
    exact absurd ht (by decide)

/-- C10, witness: a nine-digit zip is truncated to its first five
characters. -/
theorem C10_witness :
    cellOf (enrichRow sampleTxn detZip9) "Place Of Performance ZIP Code" =
      .vStr "12345" := by
  obtain ⟨z, hz, -, ht, -⟩ := C10_zip sampleTxn detZip9
  rw [ht (by decide)] at hz
  exact hz.trans (by decide)

/-- C1, counterexample: for an empty normalized row set the output writer
writes only the awards CSV and the awards JSON — the aggregate
top-recipients CSV is skipped (`if not df.empty:`), so the claim that all
three files are written on every run, including an empty one, fails. -/
theorem C1_counterexample :
    (write_outputs ⟨COLS_OUT, []⟩ "nih" 90).map Prod.fst =
      [csvName "nih" 90, jsonName "nih" 90] ∧
    ((write_outputs ⟨COLS_OUT, []⟩ "nih" 90).map Prod.fst).contains
      (aggName "nih" 90) = false :=
  ⟨rfl, by decide⟩

/-- C1, amended: on every agency run the output writer writes the awards
CSV and the awards JSON, in that order; the aggregate top-recipients CSV is
written exactly when the normalized row set is non-empty, and is skipped
when it is empty. -/
theorem C1_files_amended (df : DF) (slug : String) (days : Nat) :
    (write_outputs df slug days).map Prod.fst =
      [csvName slug days, jsonName slug days] ++
        (if df.rows.isEmpty then [] else [aggName slug days]) := by
  by_cases h : df.rows.isEmpty <;> simp [write_outputs, h]

/-- The page loop on a prefix of non-final non-empty pages followed by a
stopping page, for any starting page number and no page cap. -/
lemma fetchLoop_go (stop : Page) (hstop : stop.hasNext = false ∨ stop.results = [])
    (post : List Page) :
    ∀ pre : List Page, (∀ p ∈ pre, p.hasNext = true ∧ p.results ≠ []) →
      ∀ page, fetchLoop none page (pre ++ stop :: post) =
        (((pre ++ [stop]).map Page.results).flatten, pre.length + 1) := by
  intro pre
  induction pre with
  | nil =>
    intro _ page
    have hcond : (!stop.hasNext || stop.results.isEmpty) = true := by
      rcases hstop with h | h <;> simp [h]
    simp [fetchLoop, hcond]
  | cons p pre' ih =>
    intro hpre page
    have hp := hpre p (List.mem_cons_self _ _)
    have hcond : (!p.hasNext || p.results.isEmpty) = false := by
      simp [hp.1, hp.2]
    have ih' := ih (fun q hq => hpre q (List.mem_cons_of_mem _ hq)) (page + 1)
    simp [fetchLoop, hcond, ih']

/-- C5: for every finite server page sequence made of non-final, non-empty
pages followed by a page that reports no next page or returns an empty
result list, the page-fetch loop terminates, issues exactly one request per
page up to and including that page and no more, and accumulates the returned
rows in response order. -/
theorem C5_pagination (pre post : List Page) (stop : Page)
    (hpre : ∀ p ∈ pre, p.hasNext = true ∧ p.results ≠ [])
    (hstop : stop.hasNext = false ∨ stop.results = []) :
    fetchLoop none 1 (pre ++ stop :: post) =
      (((pre ++ [stop]).map Page.results).flatten, pre.length + 1) :=
  fetchLoop_go stop hstop post pre hpre 1

/-- C5, witness: one non-final page followed by a final page yields both
pages' rows and exactly two requests. -/
theorem C5_witness :
    fetchLoop none 1 ([pageA] ++ pageStop :: []) =
      ((([pageA] ++ [pageStop]).map Page.results).flatten, [pageA].length + 1) :=
  C5_pagination [pageA] [] pageStop (by decide) (by decide)

/-- C6, counterexample: the tier value `"Toptier"` differs from both
`"toptier"` and `"subtier"`, yet invoking the fetch with it raises no error:
the filter is accepted after strip/lower normalization, the fetch returns a
frame, and a transaction-page request is issued. -/
theorem C6_counterexample :
    ("Toptier" == "toptier") = false ∧ ("Toptier" == "subtier") = false ∧
    (∃ v, (fetch_for_agency_site "Toptier" "National Institutes of Health"
      pages1 false net0 j0 none).1 = .ok v) ∧
    (fetch_for_agency_site "Toptier" "National Institutes of Health"
      pages1 false net0 j0 none).2 = 1 :=
  ⟨rfl, rfl, ⟨_, rfl⟩, rfl⟩

/-- C6, amended: for every tier value whose stripped, lowercased form is
neither `"toptier"` nor `"subtier"`, invoking the fetch raises the
`ValueError` immediately and synchronously: zero page requests are
issued. -/
theorem C6_tier_amended (tier name : String) (pages : List Page) (dd : Bool)
    (net : String → Nat → AttemptOutcome) (j : Nat → Rat) (mp : Option Nat)
    (h1 : pyLower (pyStrip tier) ≠ "toptier")
    (h2 : pyLower (pyStrip tier) ≠ "subtier") :
    (fetch_for_agency_site tier name pages dd net j mp).1 =
      .error ("tier must be toptier or subtier, got: " ++ pyLower (pyStrip tier)) ∧
    (fetch_for_agency_site tier name pages dd net j mp).2 = 0 := by
  have hb : build_agency_filter tier name =
      .error ("tier must be toptier or subtier, got: " ++ pyLower (pyStrip tier)) := by
    simp [build_agency_filter, h1, h2]
  simp [fetch_for_agency_site, hb]

/-- C6, witness: the tier `"banana"` is rejected before any request. -/
theorem C6_witness :
    (fetch_for_agency_site "banana" "x" pages1 false net0 j0 none).1 =
      .error ("tier must be toptier or subtier, got: " ++ pyLower (pyStrip "banana")) ∧
    (fetch_for_agency_site "banana" "x" pages1 false net0 j0 none).2 = 0 :=
  C6_tier_amended "banana" "x" pages1 false net0 j0 none (by decide) (by decide)

/-- C7: a transaction whose detail lookup fails on every bounded attempt
still yields its output row.  Conjuncts: (i) when every attempt fails —
an exception, or any non-200 status, retryable or not — `_get_detail`
returns the empty detail (and, being total, propagates no error);
(ii) the row enriched from the empty detail has every enrichment field equal
to the empty string and both derived flags false; (iii) the detail-path
pipeline emits exactly one output row per fetched transaction; (iv) when
every lookup attempt of every award fails, every emitted row is an
empty-detail row. -/
theorem C7_detail_failure :
    (∀ (oracle : Nat → AttemptOutcome) (tries : Nat),
      (∀ a, isSuccess (oracle a) = false) → _get_detail oracle tries = emptyDetail) ∧
    (∀ t : TxnRow,
      cellOf (enrichRow t emptyDetail) "Piid" = .vStr "" ∧
      cellOf (enrichRow t emptyDetail) "Place Of Performance City Name" = .vStr "" ∧
      cellOf (enrichRow t emptyDetail) "Place Of Performance ZIP Code" = .vStr "" ∧
      cellOf (enrichRow t emptyDetail) "Place Of Performance County Name" = .vStr "" ∧
      cellOf (enrichRow t emptyDetail) "Type Of Set Aside" = .vStr "" ∧
      cellOf (enrichRow t emptyDetail) "Type Of Set Aside Description" = .vStr "" ∧
      cellOf (enrichRow t emptyDetail) "Contracting Officer Business Size Determination" = .vStr "" ∧
      cellOf (enrichRow t emptyDetail) "Last Modified Date" = .vStr "" ∧
      cellOf (enrichRow t emptyDetail) "Is Small Business" = .vBool false ∧
      cellOf (enrichRow t emptyDetail) "Is 8a Set-Aside" = .vBool false) ∧
    (∀ pages net j mp,
      ((fetch_for_agency pages true net j mp).1).rows.length =
        (fetchLoop mp 1 pages).1.length) ∧
    (∀ pages net j mp, (∀ id a, isSuccess (net id a) = false) →
      ∀ r ∈ ((fetch_for_agency pages true net j mp).1).rows,
        ∃ t, r = enrichRow t emptyDetail) := by
  refine ⟨?_, ?_, ?_, ?_⟩
  · intro oracle tries h
    exact getDetailFrom_of_fail h tries 0
  · intro t
    refine ⟨?_, ?_, ?_, ?_, ?_, ?_, ?_, ?_, ?_, ?_⟩
    · rw [cellEnrich_piid]; rfl
    · rw [cellEnrich_city]; rfl
    · rw [cellEnrich_zip]; rfl
    · rw [cellEnrich_county]; rfl
    · rw [cellEnrich_setAside]; rfl
    · rw [cellEnrich_setAsideDesc]; rfl
    · rw [cellEnrich_size]; rfl
    · rw [cellEnrich_lastMod]; rfl
    · rw [cellEnrich_isSmall]; rfl
    · rw [cellEnrich_is8a]; rfl
  · intro pages net j mp
    by_cases h : (fetchLoop mp 1 pages).1.isEmpty
    · have h0 : (fetchLoop mp 1 pages).1 = [] := List.isEmpty_iff.mp h
      simp [fetch_for_agency, h, h0]
    · simp [fetch_for_agency, h]
  · intro pages net j mp hfail r hr
    by_cases h : (fetchLoop mp 1 pages).1.isEmpty
    · simp [fetch_for_agency, h] at hr
    · simp only [fetch_for_agency, h, Bool.not_true, Bool.false_eq_true,
        ite_false] at hr
      obtain ⟨t, -, ht⟩ := List.mem_map.mp hr
      exact ⟨t, by rw [← ht, detailRowTimed_fst_of_fail hfail]⟩

/-- C7, witness: four timeouts yield the empty detail, and the empty-detail
row keeps its place with blank enrichment. -/
theorem C7_witness :
    _get_detail (fun _ => .exc) 4 = emptyDetail ∧
    cellOf (enrichRow txnB emptyDetail) "Piid" = .vStr "" ∧
    cellOf (enrichRow txnB emptyDetail) "Is Small Business" = .vBool false :=
  ⟨C7_detail_failure.1 (fun _ => .exc) 4 (fun _ => rfl),
   (C7_detail_failure.2.1 txnB).1,
   (C7_detail_failure.2.1 txnB).2.2.2.2.2.2.2.2.1⟩

/-- C9: with the date window, agency filter and server responses fixed, the
normalized output frame of the pipeline does not depend on the random jitter
drawn between detail-lookup attempts — two runs produce identical rows, and
the jitter affects only the total sleep time. -/
theorem C9_jitter_independent (pages : List Page) (dd : Bool)
    (net : String → Nat → AttemptOutcome) (mp : Option Nat) (j1 j2 : Nat → Rat) :
    (fetch_for_agency pages dd net j1 mp).1 = (fetch_for_agency pages dd net j2 mp).1 := by
  by_cases h : (fetchLoop mp 1 pages).1.isEmpty
  · simp [fetch_for_agency, h]
  · by_cases hd : dd = true
    · subst hd
      have hnot : ¬ ((!true) = true) := by decide
      have hmap : (fetchLoop mp 1 pages).1.map (fun t => (detailRowTimed net j1 t).1) =
          (fetchLoop mp 1 pages).1.map (fun t => (detailRowTimed net j2 t).1) :=
        List.map_congr_left (fun t _ => detailRowTimed_fst_jitter net j1 j2 t)
      unfold fetch_for_agency
      rw [if_neg h]
      rw [if_neg h]
      rw [if_neg hnot]
      rw [if_neg hnot]
      exact congrArg (DF.mk COLS_OUT) hmap
    · have hd' : dd = false := by
        cases dd
        · rfl
        · exact absurd rfl hd
      subst hd'
      simp [fetch_for_agency, h]

/-- C4: every frame returned by the fetch-for-agency pipeline — zero
transactions, detail skipped, or enrichment run — carries exactly the
nineteen columns of the fixed schema in fixed order, and every row's keys
are the schema in order.  In the no-detail path every detail-backed string
column holds the empty string (not absent) and both flag columns hold false;
in the detail path the flag columns always hold booleans and every
enrichment column whose source fields are unpopulated holds the empty
string. -/
theorem C4_schema :
    (∀ pages dd net j mp, ((fetch_for_agency pages dd net j mp).1).cols = COLS_OUT) ∧
    COLS_OUT.length = 19 ∧
    (∀ pages dd net j mp, ∀ r ∈ ((fetch_for_agency pages dd net j mp).1).rows,
      r.map Prod.fst = COLS_OUT) ∧
    (∀ pages net j mp, ∀ r ∈ ((fetch_for_agency pages false net j mp).1).rows,
      cellOf r "Piid" = .vStr "" ∧
      cellOf r "Place Of Performance City Name" = .vStr "" ∧
      cellOf r "Place Of Performance ZIP Code" = .vStr "" ∧
      cellOf r "Place Of Performance County Name" = .vStr "" ∧
      cellOf r "Type Of Set Aside" = .vStr "" ∧
      cellOf r "Type Of Set Aside Description" = .vStr "" ∧
      cellOf r "Contracting Officer Business Size Determination" = .vStr "" ∧
      cellOf r "Last Modified Date" = .vStr "" ∧
      cellOf r "Is Small Business" = .vBool false ∧
      cellOf r "Is 8a Set-Aside" = .vBool false) ∧
    (∀ t det, (∃ b, cellOf (enrichRow t det) "Is Small Business" = .vBool b) ∧
      ∃ b, cellOf (enrichRow t det) "Is 8a Set-Aside" = .vBool b) ∧
    (∀ t det, det.piid.truthy = false →
      cellOf (enrichRow t det) "Piid" = .vStr "") ∧
    (∀ t det, det.pop_city_name.truthy = false →
      (popOf det).city_name.truthy = false →
      cellOf (enrichRow t det) "Place Of Performance City Name" = .vStr "") ∧
    (∀ t det, (detZipRaw det).truthy = false →
      cellOf (enrichRow t det) "Place Of Performance ZIP Code" = .vStr "") ∧
    (∀ t det, det.pop_county_name.truthy = false →
      (popOf det).county_name.truthy = false →
      cellOf (enrichRow t det) "Place Of Performance County Name" = .vStr "") ∧
    (∀ t det, det.type_set_aside.truthy = false →
      cellOf (enrichRow t det) "Type Of Set Aside" = .vStr "") ∧
    (∀ t det, det.type_set_aside_description.truthy = false →
      cellOf (enrichRow t det) "Type Of Set Aside Description" = .vStr "") ∧
    (∀ t det, det.contracting_officers_determination_of_business_size.truthy = false →
      cellOf (enrichRow t det) "Contracting Officer Business Size Determination" = .vStr "") ∧
    (∀ t det, det.last_modified_date.truthy = false →
      cellOf (enrichRow t det) "Last Modified Date" = .vStr "") := by
  refine ⟨?_, rfl, ?_, ?_, ?_, ?_, ?_, ?_, ?_, ?_, ?_, ?_, ?_⟩
  · intro pages dd net j mp
    cases dd <;> by_cases h : (fetchLoop mp 1 pages).1.isEmpty <;>
      simp [fetch_for_agency, h]
  · intro pages dd net j mp r hr
    cases dd with
    | false =>
      by_cases h : (fetchLoop mp 1 pages).1.isEmpty
      · simp [fetch_for_agency, h] at hr
      · simp [fetch_for_agency, h] at hr
        obtain ⟨t, -, ht⟩ := hr
        rw [← ht]
        exact keys_baseRowOut t
    | true =>
      by_cases h : (fetchLoop mp 1 pages).1.isEmpty
      · simp [fetch_for_agency, h] at hr
      · simp [fetch_for_agency, h] at hr
        obtain ⟨t, -, ht⟩ := hr
        rw [← ht]
        exact keys_detailRowTimed net j t
  · intro pages net j mp r hr
    by_cases h : (fetchLoop mp 1 pages).1.isEmpty
    · simp [fetch_for_agency, h] at hr
    · simp [fetch_for_agency, h] at hr
      obtain ⟨t, -, ht⟩ := hr
      rw [← ht]
      exact ⟨rfl, rfl, rfl, rfl, rfl, rfl, rfl, rfl, rfl, rfl⟩
  · intro t det
    exact ⟨⟨_, cellEnrich_isSmall t det⟩, _, cellEnrich_is8a t det⟩
  · intro t det h
    rw [cellEnrich_piid]
    exact pyOr_of_falsy h _
  · intro t det h1 h2
    rw [cellEnrich_city]
    unfold detCity
    rw [pyOr_of_falsy h1, pyOr_of_falsy h2]
  · intro t det h
    rw [cellEnrich_zip]
    simp [detZip5, h]
  · intro t det h1 h2
    rw [cellEnrich_county]
    unfold detCounty
    rw [pyOr_of_falsy h1, pyOr_of_falsy h2]
  · intro t det h
    rw [cellEnrich_setAside]
    exact pyOr_of_falsy h _
  · intro t det h
    rw [cellEnrich_setAsideDesc]
    exact pyOr_of_falsy h _
  · intro t det h
    rw [cellEnrich_size]
    exact pyOr_of_falsy h _
  · intro t det h
    rw [cellEnrich_lastMod]
    exact pyOr_of_falsy h _

/-- C4, witness: concrete instances of the schema invariant — the columns
of a concrete run, a concrete row's keys, and concrete default cells. -/
theorem C4_witness :
    ((fetch_for_agency pages1 false net0 j0 none).1).cols = COLS_OUT ∧
    (baseRowOut txnB).map Prod.fst = COLS_OUT ∧
    cellOf (baseRowOut txnB) "Piid" = .vStr "" ∧
    cellOf (enrichRow txnB emptyDetail) "Piid" = .vStr "" := by
  obtain ⟨h1, -, h3, h4, -, h6, -⟩ := C4_schema
  refine ⟨h1 pages1 false net0 j0 none, ?_, ?_, ?_⟩
  · exact h3 pages1 false net0 j0 none (baseRowOut txnB) (by decide)
  · exact (h4 pages1 net0 j0 none (baseRowOut txnB) (by decide)).1
  · exact h6 txnB emptyDetail (by decide)

/-- C3: for every non-empty normalized row set, the writer emits the
aggregate table; the table has exactly one row per recipient key occurring
in the rows (a missing recipient is one group of its own), the total of each
aggregate row equals the sum of `Award Amount` over all rows with that
recipient, and the table is sorted descending by total. -/
theorem C3_aggregate (df : DF) (slug : String) (days : Nat) (h : df.rows ≠ []) :
    ((aggName slug days, OutFile.aggTable (top_recipients df.rows)) ∈
      write_outputs df slug days) ∧
    (∀ k ∈ df.rows.map recipientOf,
      (top_recipients df.rows).countP (fun p => decide (p.1 = k)) = 1) ∧
    (∀ p ∈ top_recipients df.rows,
      p.2 = ((df.rows.filter (fun r => decide (recipientOf r = p.1))).map amountOf).sum) ∧
    List.Sorted descByTotal (top_recipients df.rows) := by
  have he : df.rows.isEmpty = false := by
    cases hrows : df.rows with
    | nil => exact absurd hrows h
    | cons a l => rfl
  refine ⟨?_, ?_, ?_, sortDesc_sorted _⟩
  · simp [write_outputs, he]
  · intro k hk
    unfold top_recipients
    rw [(sortDesc_perm _).countP_eq]
    exact countP_pairs_eq_one _ (List.nodup_dedup _) (List.mem_dedup.mpr hk)
  · intro p hp
    have hp' : p ∈ ((df.rows.map recipientOf).dedup).map
        (fun k => (k, groupTotal df.rows k)) := (sortDesc_perm _).mem_iff.mp hp
    obtain ⟨k, -, hkp⟩ := List.mem_map.mp hp'
    rw [← hkp]
    rfl

/-- C3, witness: three rows over two recipients — the aggregate file is
written and the recipient `"ALPHA"` has exactly one aggregate row. -/
theorem C3_witness :
    ((aggName "nih" 90, OutFile.aggTable (top_recipients rows3)) ∈
      write_outputs ⟨COLS_OUT, rows3⟩ "nih" 90) ∧
    (top_recipients rows3).countP (fun p => decide (p.1 = PVal.vStr "ALPHA")) = 1 := by
  obtain ⟨h1, h2, -, -⟩ := C3_aggregate ⟨COLS_OUT, rows3⟩ "nih" 90 (by decide)
  exact ⟨h1, h2 (PVal.vStr "ALPHA") (by decide)⟩

end USASpending
